import Mathlib

/-!
Verification development for the incremental file-tracking and
vector-index synchronization engine of a RAG document-indexing pipeline.

The embedding is a shallow one: each Python function of the repository
(src/indexer/file_tracker.py, src/indexer/main.py, src/common/vector_store.py,
src/search/rag_chain.py) becomes a pure Lean function over an explicit
state.  External collaborators are abstracted as data carried by the
modelled filesystem:

* the filesystem is a finite map from absolute path to a `FileInfo`
  carrying the stat data (size, mtime), the content (for hashing), a
  `readable` flag (False models an IOError while reading for hashing),
  a `loadError` flag (True models the document loader raising), and the
  number of documents / chunks the loader and splitter would produce;
* MD5 (`hashlib.md5(...).hexdigest()`) is modelled by an injective
  encoding `md5_hexdigest`; the development uses only that it is
  deterministic, injective on inputs, and that every digest is a
  non-empty string (real MD5 hex digests are 32 characters long);
* `os.path.abspath` is modelled as the identity: model paths are taken
  to be absolute already;
* ChromaDB collections become association lists keyed by id; a `fail`
  flag on the metadata store models a raised exception from a metadata
  collection operation (the StoreError read/write paths);
* the language-model call becomes a function from the chosen
  `max_tokens` budget to `Except String String`.
-/

/-- Classification states returned by the change detector
(file_tracker.py `is_file_modified` / `get_modified_files`). -/
inductive Status where
  | new
  | modified
  | unchanged
  | not_found
deriving DecidableEq, Repr

/-- Events recording which comparisons `is_file_modified` actually
performs, in execution order.  `mtimeCmp` is the comparison at
file_tracker.py line 93, `sizeCmp` the one at line 97, `hashCmp` the
hash computation and comparison at lines 102-103.  The trace
instruments the embedding so that the order of the checks (a stated
spec property) is provable, without changing any result. -/
inductive Check where
  | mtimeCmp
  | sizeCmp
  | hashCmp
deriving DecidableEq, Repr

/-- Modelled per-file filesystem state.  `size`, `mtime`, `content`
are the stat data and byte content; `readable = false` models an
IOError when opening the file for hashing; `loadError = true` models
the document loader raising; `numDocs` is the length of the list the
loader returns; `numChunks` is the number of chunks the text splitter
produces from those documents. -/
structure FileInfo where
  size : Nat
  mtime : Nat
  content : String
  readable : Bool
  loadError : Bool
  numDocs : Nat
  numChunks : Nat
deriving DecidableEq, Repr

/-- Modelled filesystem: association list from absolute path to
`FileInfo`, plus the current clock (`time.time()`, used for
`indexed_at`). -/
structure FileSys where
  files : List (String × FileInfo)
  now : Nat
deriving DecidableEq, Repr

/-- Splits a character list at every occurrence of the separator
character; kernel-computable model of Python `str.split(sep)` /
`String.splitOn` for a one-character separator. -/
def splitCharAux (sep : Char) : List Char → List (List Char)
  | [] => [[]]
  | x :: xs =>
      let rest := splitCharAux sep xs
      if x == sep then [] :: rest
      else
        match rest with
        | [] => [[x]]
        | h :: t => (x :: h) :: t

/-- Splits a string at every occurrence of the separator character. -/
def splitChar (s : String) (sep : Char) : List String :=
  (splitCharAux sep s.data).map String.mk

/-- Splits a character list at every character satisfying the
predicate; kernel-computable model of Python `str.split()` (with the
empty groups still present, to be filtered by the caller). -/
def splitPredAux (p : Char → Bool) : List Char → List (List Char)
  | [] => [[]]
  | x :: xs =>
      let rest := splitPredAux p xs
      if p x then [] :: rest
      else
        match rest with
        | [] => [[x]]
        | h :: t => (x :: h) :: t

/-- Kernel-computable model of `str.endswith(suffix)`. -/
def strEndsWith (s suffix : String) : Bool :=
  List.isPrefixOf suffix.data.reverse s.data.reverse

/-- Kernel-computable model of `str.lower()`. -/
def strToLower (s : String) : String :=
  String.mk (s.data.map Char.toLower)

/-- Abstract stand-in for `hashlib.md5(content).hexdigest()`.  Only
determinism, injectivity and non-emptiness of digests are used; real
digests are 32-character hex strings, in particular never empty. -/
def md5_hexdigest (s : String) : String :=
  "md5:" ++ s

/-- The value `FileTracker.get_file_hash` returns when reading the
file raises IOError (file_tracker.py line 42): the empty string. -/
def hash_unavailable : String :=
  ""

/-- Embeds `FileTracker.generate_file_id` (file_tracker.py lines
28-31): `md5(abspath(path)).hexdigest()`, modelled as an injective
encoding of the (already absolute) path. -/
def generate_file_id (file_path : String) : String :=
  "fid:" ++ file_path

/-- Embeds `os.path.basename`: the part after the last slash. -/
def basename (p : String) : String :=
  (splitChar p '/').getLastD p

/-- Embeds `os.path.splitext(p)[1]`: the final dot-suffix including
the dot, empty when the path has no dot. -/
def splitext_ext (p : String) : String :=
  match splitChar p '.' with
  | [] => ""
  | [_] => ""
  | parts => "." ++ parts.getLastD ""

/-- Embeds `FileTracker.get_file_hash` (file_tracker.py lines 33-42):
MD5 of the file content, or `hash_unavailable` (the empty string) when
the content cannot be read (IOError, including a missing file). -/
def get_file_hash (fs : FileSys) (file_path : String) : String :=
  match List.lookup file_path fs.files with
  | none => hash_unavailable
  | some fi => if fi.readable then md5_hexdigest fi.content else hash_unavailable

/-- Metadata dictionary built by `FileTracker.get_file_metadata`
(file_tracker.py lines 44-66).  `content_hash` is `none` when the
dictionary was built with `include_hash = False` (the key is absent). -/
structure Metadata where
  file_id : String
  file_path : String
  file_name : String
  size : Nat
  mtime : Nat
  extension : String
  indexed_at : Nat
  content_hash : Option String
deriving DecidableEq, Repr

/-- A record of the `file_metadata` collection: the metadata
dictionary plus the `chunk_count` added by `store_file_metadata`
(file_tracker.py line 121). -/
structure FileRecord extends Metadata where
  chunk_count : Nat
deriving DecidableEq, Repr

/-- The `file_metadata` ChromaDB collection, keyed by `file_id`.
`fail = true` models a collection operation raising (StoreError). -/
structure MetaStore where
  records : List FileRecord
  fail : Bool
deriving DecidableEq, Repr

/-- Lookup of `metadata_collection.get(ids=[fid])`. -/
def findRecord (rs : List FileRecord) (fid : String) : Option FileRecord :=
  rs.find? (fun r => r.file_id == fid)

/-- Embeds `FileTracker.get_file_metadata` (file_tracker.py lines
44-66): `none` when the path does not exist, otherwise the stat data;
the hash is computed only when `include_hash` is set. -/
def get_file_metadata (fs : FileSys) (file_path : String) (include_hash : Bool) :
    Option Metadata :=
  match List.lookup file_path fs.files with
  | none => none
  | some fi =>
      some
        { file_id := generate_file_id file_path
          file_path := file_path
          file_name := basename file_path
          size := fi.size
          mtime := fi.mtime
          extension := strToLower (splitext_ext file_path)
          indexed_at := fs.now
          content_hash :=
            if include_hash then some (get_file_hash fs file_path) else none }

/-- Result of `FileTracker.is_file_modified`: the returned pair
`(is_modified, status)`, plus the instrumentation trace of performed
comparisons and the warnings printed. -/
structure ClassifyResult where
  is_modified : Bool
  status : Status
  trace : List Check
  warnings : List String
deriving DecidableEq, Repr

/-- Embeds `FileTracker.is_file_modified` (file_tracker.py lines
68-110).  Stat without hash first; `not_found` for a missing path; a
raised metadata lookup is caught and answered with `new` plus a
printed warning; otherwise mtime is compared first (line 93), then
size (line 97), and the content hash is computed and compared only
when both agree (lines 102-103). -/
def is_file_modified (fs : FileSys) (ms : MetaStore) (file_path : String) :
    ClassifyResult :=
  match get_file_metadata fs file_path false with
  | none => ⟨false, Status.not_found, [], []⟩
  | some current =>
      if ms.fail then
        ⟨true, Status.new, [], ["Error checking file metadata: StoreError"]⟩
      else
        match findRecord ms.records current.file_id with
        | none => ⟨true, Status.new, [], []⟩
        | some stored =>
            if current.mtime ≠ stored.mtime then
              ⟨true, Status.modified, [Check.mtimeCmp], []⟩
            else if current.size ≠ stored.size then
              ⟨true, Status.modified, [Check.mtimeCmp, Check.sizeCmp], []⟩
            else if some (get_file_hash fs file_path) ≠ stored.content_hash then
              ⟨true, Status.modified, [Check.mtimeCmp, Check.sizeCmp, Check.hashCmp], []⟩
            else
              ⟨false, Status.unchanged, [Check.mtimeCmp, Check.sizeCmp, Check.hashCmp], []⟩

/-- Upsert into the metadata collection: `store_file_metadata` checks
whether the id exists, then calls `update` or `add` (file_tracker.py
lines 124-142). -/
def upsertRecord (rs : List FileRecord) (r : FileRecord) : List FileRecord :=
  if rs.any (fun x => x.file_id == r.file_id) then
    rs.map (fun x => if x.file_id == r.file_id then r else x)
  else
    rs ++ [r]

/-- Embeds `FileTracker.store_file_metadata` (file_tracker.py lines
112-148): builds the metadata with hash, adds `chunk_count`, upserts;
a missing file or a raised collection operation yields `False` and
leaves the store untouched. -/
def store_file_metadata (fs : FileSys) (ms : MetaStore) (file_path : String)
    (chunk_count : Nat) : MetaStore × Bool :=
  match get_file_metadata fs file_path true with
  | none => (ms, false)
  | some md =>
      if ms.fail then (ms, false)
      else ({ records := upsertRecord ms.records { md with chunk_count := chunk_count },
              fail := ms.fail }, true)

/-- Embeds `FileTracker.get_file_chunk_count` (file_tracker.py lines
150-166): the recorded `chunk_count`, or 0 when the file is untracked
or the lookup raises. -/
def get_file_chunk_count (ms : MetaStore) (file_path : String) : Nat :=
  if ms.fail then 0
  else
    match findRecord ms.records (generate_file_id file_path) with
    | some r => r.chunk_count
    | none => 0

/-- Embeds `FileTracker.get_all_tracked_files` (file_tracker.py lines
180-195): all records, or the empty list when the scan raises. -/
def get_all_tracked_files (ms : MetaStore) : List FileRecord :=
  if ms.fail then [] else ms.records

/-- Embeds `FileTracker.cleanup_deleted_files` (file_tracker.py lines
197-213): every tracked record whose `file_path` is not among the
given existing paths is deleted from the metadata collection and its
path reported.  Note that only the metadata collection is touched: the
source never deletes the corresponding chunks from the vector index. -/
def cleanup_deleted_files (ms : MetaStore) (existing_file_paths : List String) :
    MetaStore × List String :=
  let tracked := get_all_tracked_files ms
  if ms.fail then (ms, [])
  else
    ({ records := ms.records.filter (fun r => existing_file_paths.contains r.file_path),
       fail := ms.fail },
     (tracked.filter (fun r => ¬ existing_file_paths.contains r.file_path)).map
       (fun r => r.file_path))

/-- Embeds `FileTracker.get_modified_files` (file_tracker.py lines
215-229): per-path classification, `not_found` for paths that do not
exist. -/
def get_modified_files (fs : FileSys) (ms : MetaStore) (file_paths : List String) :
    List (String × Status) :=
  file_paths.map (fun p =>
    if (List.lookup p fs.files).isSome then (p, (is_file_modified fs ms p).status)
    else (p, Status.not_found))

/-- A chunk of the `documents` ChromaDB collection: its id (fresh
uuid4 values modelled by a counter) and the `file_id` tag written into
its metadata by `VectorStore.add_documents`.  Chunk text and embedding
are opaque to every claim and are not carried. -/
structure Chunk where
  cid : Nat
  file_id : String
deriving DecidableEq, Repr

/-- The `documents` ChromaDB collection, with the counter supplying
fresh chunk ids. -/
structure VecStore where
  chunks : List Chunk
  nextId : Nat
deriving DecidableEq, Repr

/-- Embeds `collection.count()`. -/
def VecStore.count (vs : VecStore) : Nat :=
  vs.chunks.length

/-- Embeds `VectorStore.add_documents` (vector_store.py lines 27-47)
for the indexer call path: `n` chunk texts are stored under fresh ids,
each tagged with the given (always non-empty) `file_id`; the generated
ids are returned. -/
def add_documents (vs : VecStore) (n : Nat) (file_id : String) :
    VecStore × List Nat :=
  let ids := (List.range n).map (fun i => vs.nextId + i)
  ({ chunks := vs.chunks ++ ids.map (fun i => ⟨i, file_id⟩),
     nextId := vs.nextId + n },
   ids)

/-- Embeds `VectorStore.remove_documents_by_file_id` (vector_store.py
lines 98-119): deletes every chunk whose metadata `file_id` matches
and returns how many were deleted. -/
def remove_documents_by_file_id (vs : VecStore) (file_id : String) :
    VecStore × Nat :=
  ({ chunks := vs.chunks.filter (fun c => c.file_id != file_id),
     nextId := vs.nextId },
   (vs.chunks.filter (fun c => c.file_id == file_id)).length)

/-- Joint state of the two collections mutated by `DocumentIndexer`. -/
structure SysState where
  vs : VecStore
  ms : MetaStore
deriving DecidableEq, Repr

/-- Embeds `validate_file_path` (utils.py lines 38-61): non-empty
path, existing file, extension in the supported set. -/
def validate_file_path (fs : FileSys) (file_path : String) : Bool :=
  file_path != "" && (List.lookup file_path fs.files).isSome &&
    [".pdf", ".txt", ".md"].contains (strToLower (splitext_ext file_path))

/-- Embeds `DocumentIndexer.index_single_file` (main.py lines
97-147).  Returns the new state and the `(success, chunk_count)` pair:
validation, classification, the `unchanged` short-circuit (line 107),
stale-chunk removal for `modified` files (lines 118-120), the loader
dispatch with its exception handler (lines 122-133), the empty-content
check (line 135), ingestion through `_process_and_index_documents`
(lines 149-171), and the tracking upsert when `update_tracking` is
set (lines 142-145). -/
def index_single_file (fs : FileSys) (st : SysState) (file_path : String)
    (update_tracking : Bool) : SysState × (Bool × Nat) :=
  if ¬ validate_file_path fs file_path then (st, (false, 0))
  else
    let cr := is_file_modified fs st.ms file_path
    if cr.is_modified = false ∧ cr.status = Status.unchanged then
      (st, (true, get_file_chunk_count st.ms file_path))
    else
      let file_id := generate_file_id file_path
      let vs1 :=
        if cr.status = Status.modified then
          (remove_documents_by_file_id st.vs file_id).1
        else st.vs
      match List.lookup file_path fs.files with
      | none => (⟨vs1, st.ms⟩, (false, 0))
      | some fi =>
          -- load_pdf / load_text dispatch; both loaders are the same
          -- abstract collaborator in the model.
          if strEndsWith file_path ".pdf" || strEndsWith file_path ".txt" ||
              strEndsWith file_path ".md" then
            if fi.loadError then (⟨vs1, st.ms⟩, (false, 0))
            else if fi.numDocs = 0 then (⟨vs1, st.ms⟩, (false, 0))
            else
              let chunk_count := fi.numChunks
              let vs2 := (add_documents vs1 chunk_count file_id).1
              let ms2 :=
                if update_tracking then
                  (store_file_metadata fs st.ms file_path chunk_count).1
                else st.ms
              (⟨vs2, ms2⟩, (true, chunk_count))
          else (⟨vs1, st.ms⟩, (false, 0))

/-- Aggregate result of `DocumentIndexer.index_documents_from_directory`:
the final state, the returned boolean, the work set, the reported
chunk total, the paths reported deleted, and the initial per-path
classification. -/
structure DirResult where
  st : SysState
  ok : Bool
  files_to_process : List String
  total_chunks : Nat
  deleted_files : List String
  file_status : List (String × Status)
deriving DecidableEq, Repr

/-- Embeds `DocumentIndexer.index_documents_from_directory` (main.py
lines 32-95).  The modelled `FileSys` is the target directory, so the
directory-validation of lines 36-37 always passes; candidate
enumeration follows the glob patterns in order (line 42); the empty
check (lines 47-49), the classification pass (line 54), the force
override of the work set (lines 64-70), the early return when nothing
needs processing (lines 72-74), the per-file indexing loop with
`update_tracking=False` (lines 78-81), the tracking loop that re-reads
the chunk count from the metadata store (lines 84-87), and the cleanup
of deleted files (line 90) are all translated directly. -/
def index_documents_from_directory (fs : FileSys) (st : SysState)
    (force_reindex : Bool) : DirResult :=
  let paths := fs.files.map Prod.fst
  let all_files :=
    paths.filter (fun p => strEndsWith p ".pdf") ++
    paths.filter (fun p => strEndsWith p ".txt") ++
    paths.filter (fun p => strEndsWith p ".md")
  if all_files.isEmpty then ⟨st, false, [], 0, [], []⟩
  else
    let file_status := get_modified_files fs st.ms all_files
    let new_files := (file_status.filter (fun x => x.2 == Status.new)).map Prod.fst
    let modified_files :=
      (file_status.filter (fun x => x.2 == Status.modified)).map Prod.fst
    let files_to_process :=
      if force_reindex then all_files else new_files ++ modified_files
    if files_to_process.isEmpty then ⟨st, true, [], 0, [], file_status⟩
    else
      let step1 := files_to_process.foldl
        (fun (acc : SysState × Nat) f =>
          let out := index_single_file fs acc.1 f false
          (out.1, if out.2.1 then acc.2 + out.2.2 else acc.2))
        (st, 0)
      let ms2 := files_to_process.foldl
        (fun ms f =>
          if (List.lookup f file_status).isSome then
            (store_file_metadata fs ms f (get_file_chunk_count ms f)).1
          else ms)
        step1.1.ms
      let cleanup := cleanup_deleted_files ms2 all_files
      ⟨⟨step1.1.vs, cleanup.1⟩, true, files_to_process, step1.2, cleanup.2,
        file_status⟩

/-- A retrieved document handed to `RAGChain.generate_response`:
its content and the optional `source` field of its metadata. -/
structure RetrievedDoc where
  content : String
  metadata_source : Option String
deriving DecidableEq, Repr

/-- Embeds `RAGChain.format_context` (rag_chain.py lines 19-34) with
the `context_format` template of config.py instantiated: one numbered
block per document, joined by newlines. -/
def format_context (retrieved_docs : List RetrievedDoc) : String :=
  String.intercalate "\n"
    (retrieved_docs.enum.map (fun x =>
      "[" ++ toString (x.1 + 1) ++ "] " ++
        (x.2.metadata_source.getD "Unknown source") ++ ":\n" ++ x.2.content ++ "\n"))

/-- Embeds Python `str.split()` with no argument: split on whitespace
runs, dropping empty fields. -/
def word_count (s : String) : Nat :=
  ((splitPredAux (fun c => c.isWhitespace) s.data).filter (fun w => !w.isEmpty)).length

/-- Embeds `RAGChain.generate_response` (rag_chain.py lines 36-61).
The language-model call is the collaborator `llm`, a function of the
chosen `max_tokens` budget returning either the answer text or the
exception message; the `except` branch turns a failure into the
degraded answer string instead of raising. -/
def generate_response (question : String) (retrieved_docs : List RetrievedDoc)
    (is_complex : Bool) (llm : Nat → Except String String) : String :=
  let context := format_context retrieved_docs
  let estimated_tokens := word_count context + word_count question
  let max_tokens := if is_complex || estimated_tokens > 300 then 1200 else 800
  match llm max_tokens with
  | Except.ok text => text
  | Except.error e => "Error generating response: " ++ e

/-- Modelled from the spec wording of claim C6 only (spec lines
50-53), for comparison with the source's `is_file_modified`: checks in
the order missing-record, then size, then mtime, then hash.  This is
the refinement target the claim asserts; it is not a translation of
the source. -/
def classify_spec_order (fs : FileSys) (ms : MetaStore) (file_path : String) :
    ClassifyResult :=
  match get_file_metadata fs file_path false with
  | none => ⟨false, Status.not_found, [], []⟩
  | some current =>
      if ms.fail then
        ⟨true, Status.new, [], ["Error checking file metadata: StoreError"]⟩
      else
        match findRecord ms.records current.file_id with
        | none => ⟨true, Status.new, [], []⟩
        | some stored =>
            if current.size ≠ stored.size then
              ⟨true, Status.modified, [Check.sizeCmp], []⟩
            else if current.mtime ≠ stored.mtime then
              ⟨true, Status.modified, [Check.sizeCmp, Check.mtimeCmp], []⟩
            else if some (get_file_hash fs file_path) ≠ stored.content_hash then
              ⟨true, Status.modified, [Check.sizeCmp, Check.mtimeCmp, Check.hashCmp], []⟩
            else
              ⟨false, Status.unchanged, [Check.sizeCmp, Check.mtimeCmp, Check.hashCmp], []⟩

/- Concrete inputs for claim C1: one live candidate file a.txt, plus a
tracked file b.txt that no longer exists and still owns two chunks in
the vector index. -/

def c1_fileA : FileInfo :=
  ⟨10, 5, "alpha", true, false, 1, 1⟩

def c1_recB : FileRecord :=
  ⟨⟨"fid:/docs/b.txt", "/docs/b.txt", "b.txt", 20, 7, ".txt", 50, some "md5:beta"⟩, 2⟩

def c1_fs : FileSys :=
  ⟨[("/docs/a.txt", c1_fileA)], 100⟩

def c1_st : SysState :=
  ⟨⟨[⟨0, "fid:/docs/b.txt"⟩, ⟨1, "fid:/docs/b.txt"⟩], 2⟩, ⟨[c1_recB], false⟩⟩

def c1_run : DirResult :=
  index_documents_from_directory c1_fs c1_st false

/-- Claim C1, evaluated at the failing input: a synchronization pass
over a directory from which the tracked file b.txt has disappeared
deletes b.txt's FileRecord and reports it deleted, but both chunks
tagged with b.txt's file_id remain in the vector index, and `count()`
after the pass still includes them (3 = 1 new chunk + 2 orphans).
This contradicts the claimed deletion completeness: the code never
deletes the chunks of a removed file. -/
theorem c1_orphaned_chunks :
    findRecord c1_run.st.ms.records "fid:/docs/b.txt" = none ∧
    c1_run.deleted_files = ["/docs/b.txt"] ∧
    (c1_run.st.vs.chunks.filter (fun c => c.file_id == "fid:/docs/b.txt")).length = 2 ∧
    c1_run.st.vs.count = 3 := by
  decide

/- Concrete inputs for claim C2: a directory holding a single new
file that the splitter turns into 2 chunks, starting from empty
stores. -/

def c2_fi : FileInfo :=
  ⟨30, 9, "gamma", true, false, 1, 2⟩

def c2_fs : FileSys :=
  ⟨[("/docs/c.md", c2_fi)], 200⟩

def c2_st : SysState :=
  ⟨⟨[], 0⟩, ⟨[], false⟩⟩

def c2_run : DirResult :=
  index_documents_from_directory c2_fs c2_st false

/-- Claim C2, evaluated at the failing input: after a pass over a
directory with one new file that produces 2 chunks, the vector index
holds 2 chunks tagged with the file's id and the status was reported
`new`, but the single FileRecord carries chunk_count 0, not 2: the
tracking loop of `index_documents_from_directory` re-reads the stale
chunk count from the metadata store (0 for a new file) instead of
using the fresh count returned by `index_single_file`, so the claimed
invariant chunk_count = stored-chunk-count fails after the pass. -/
theorem c2_stale_chunk_count :
    c2_run.file_status = [("/docs/c.md", Status.new)] ∧
    (c2_run.st.vs.chunks.filter (fun c => c.file_id == "fid:/docs/c.md")).length = 2 ∧
    (findRecord c2_run.st.ms.records "fid:/docs/c.md").map (fun x => x.chunk_count) =
      some 0 := by
  decide

/- Concrete inputs for claim C3: one tracked file whose stat data and
content hash match its FileRecord (so it classifies `unchanged`),
whose current content would split into 3 fresh chunks, while the
record and the vector index still reflect the stale single chunk. -/

def c3_fi : FileInfo :=
  ⟨10, 5, "alpha", true, false, 1, 3⟩

def c3_rec : FileRecord :=
  ⟨⟨"fid:/docs/a.txt", "/docs/a.txt", "a.txt", 10, 5, ".txt", 50, some "md5:alpha"⟩, 1⟩

def c3_fs : FileSys :=
  ⟨[("/docs/a.txt", c3_fi)], 300⟩

def c3_st : SysState :=
  ⟨⟨[⟨0, "fid:/docs/a.txt"⟩], 1⟩, ⟨[c3_rec], false⟩⟩

def c3_run : DirResult :=
  index_documents_from_directory c3_fs c3_st true

/-- Claim C3, evaluated at the failing input: with force=true the
work set does contain the unchanged file, but the file is not
reprocessed: `index_single_file` re-classifies it `unchanged` and
short-circuits (the force flag is never passed down), so the vector
index is left byte-identical (no re-chunking, no re-storing) and the
FileRecord keeps the stale chunk_count 1 instead of the fresh count 3.
This contradicts the claimed force-reindex override. -/
theorem c3_force_skips_unchanged :
    c3_run.files_to_process = ["/docs/a.txt"] ∧
    c3_run.st.vs = c3_st.vs ∧
    (findRecord c3_run.st.ms.records "fid:/docs/a.txt").map (fun x => x.chunk_count) =
      some 1 := by
  decide

/- Concrete inputs for claim C4: one untracked candidate file whose
document loading raises, starting from empty stores. -/

def c4_fi : FileInfo :=
  ⟨40, 11, "delta", true, true, 1, 5⟩

def c4_fs : FileSys :=
  ⟨[("/docs/d.pdf", c4_fi)], 400⟩

def c4_st : SysState :=
  ⟨⟨[], 0⟩, ⟨[], false⟩⟩

def c4_run : DirResult :=
  index_documents_from_directory c4_fs c4_st false

/-- Claim C4, evaluated at the failing input: the load failure is
skipped and the batch continues (the pass still returns ok and no
chunks are stored), but the file IS recorded: the tracking loop
upserts a FileRecord for it with a fresh fingerprint, so the very next
classification of the same unchanged-on-disk file answers `unchanged`
and the file is never retried.  This contradicts the claimed
not-marked-as-tracked behaviour. -/
theorem c4_failed_file_tracked :
    c4_run.ok = true ∧
    c4_run.st.vs.chunks = [] ∧
    (findRecord c4_run.st.ms.records "fid:/docs/d.pdf").isSome = true ∧
    (is_file_modified c4_fs c4_run.st.ms "/docs/d.pdf").status = Status.unchanged := by
  decide

/-- Evaluation of `is_file_modified` on an existing, tracked file when
the metadata lookup succeeds: the source's actual comparison chain,
mtime first, then size, then the hash. -/
theorem is_file_modified_tracked (fs : FileSys) (ms : MetaStore) (p : String)
    (fi : FileInfo) (r : FileRecord)
    (h1 : List.lookup p fs.files = some fi) (h2 : ms.fail = false)
    (h3 : findRecord ms.records (generate_file_id p) = some r) :
    is_file_modified fs ms p =
      if fi.mtime ≠ r.mtime then ⟨true, Status.modified, [Check.mtimeCmp], []⟩
      else if fi.size ≠ r.size then
        ⟨true, Status.modified, [Check.mtimeCmp, Check.sizeCmp], []⟩
      else if some (get_file_hash fs p) ≠ r.content_hash then
        ⟨true, Status.modified, [Check.mtimeCmp, Check.sizeCmp, Check.hashCmp], []⟩
      else ⟨false, Status.unchanged, [Check.mtimeCmp, Check.sizeCmp, Check.hashCmp], []⟩ := by
  simp [is_file_modified, get_file_metadata, h1, h2, h3]

/-- Claim C5 (confirmed): when the content of an existing file cannot
be read for hashing, the metadata snapshot is still returned, with the
correct size and mtime, and its hash field carries `hash_unavailable`
(the empty string), a value that is never a digest `md5_hexdigest`
produces (real MD5 hex digests are 32 characters, never empty). -/
theorem c5_hash_unavailable_marker (fs : FileSys) (p : String) (fi : FileInfo)
    (h1 : List.lookup p fs.files = some fi) (h2 : fi.readable = false) :
    get_file_metadata fs p true = some
      { file_id := generate_file_id p
        file_path := p
        file_name := basename p
        size := fi.size
        mtime := fi.mtime
        extension := strToLower (splitext_ext p)
        indexed_at := fs.now
        content_hash := some hash_unavailable } ∧
    ∀ c : String, hash_unavailable ≠ md5_hexdigest c := by
  refine ⟨?_, ?_⟩
  · simp [get_file_metadata, get_file_hash, h1, h2]
  · intro c h
    have hl : hash_unavailable.length = (md5_hexdigest c).length :=
      congrArg String.length h
    have h0 : hash_unavailable.length = 0 := rfl
    have h4 : (md5_hexdigest c).length = 4 + c.length := by
      show ("md5:" ++ c).length = 4 + c.length
      rw [String.length_append]
      rfl
    omega

def c5w_fi : FileInfo :=
  ⟨7, 3, "zz", false, false, 1, 1⟩

def c5w_fs : FileSys :=
  ⟨[("/docs/x.txt", c5w_fi)], 9⟩

/-- Claim C5 witness: the theorem applied to a concrete unreadable
file. -/
theorem c5_witness :
    get_file_metadata c5w_fs "/docs/x.txt" true = some
      { file_id := "fid:/docs/x.txt"
        file_path := "/docs/x.txt"
        file_name := "x.txt"
        size := 7
        mtime := 3
        extension := ".txt"
        indexed_at := 9
        content_hash := some hash_unavailable } ∧
    hash_unavailable ≠ md5_hexdigest "zz" :=
  ⟨(c5_hash_unavailable_marker c5w_fs "/docs/x.txt" c5w_fi rfl rfl).1,
   (c5_hash_unavailable_marker c5w_fs "/docs/x.txt" c5w_fi rfl rfl).2 "zz"⟩

/- Concrete input for the C6 counterexample: a tracked file whose
mtime matches the record while its size differs. -/

def c6x_fi : FileInfo :=
  ⟨999, 5, "alpha", true, false, 1, 1⟩

def c6x_rec : FileRecord :=
  ⟨⟨"fid:/docs/a.txt", "/docs/a.txt", "a.txt", 10, 5, ".txt", 50, some "md5:alpha"⟩, 1⟩

def c6x_fs : FileSys :=
  ⟨[("/docs/a.txt", c6x_fi)], 600⟩

def c6x_ms : MetaStore :=
  ⟨[c6x_rec], false⟩

/-- Claim C6 counterexample: on a file whose recorded mtime matches
but whose size differs, the source compares mtime first and size
second (trace `[mtimeCmp, sizeCmp]`), while the claimed order — size
before mtime — would stop at the size comparison alone (trace
`[sizeCmp]`).  The claimed check order is therefore not the code's. -/
theorem c6_counterexample :
    (is_file_modified c6x_fs c6x_ms "/docs/a.txt").trace =
      [Check.mtimeCmp, Check.sizeCmp] ∧
    (classify_spec_order c6x_fs c6x_ms "/docs/a.txt").trace = [Check.sizeCmp] ∧
    (is_file_modified c6x_fs c6x_ms "/docs/a.txt").trace ≠
      (classify_spec_order c6x_fs c6x_ms "/docs/a.txt").trace := by
  decide

/-- Claim C6 as amended (proved): the classification checks run in
the order missing-FileRecord first (answering `new`), then mtime
inequality, then size inequality, each short-circuiting with
`modified`, and the content hash is computed and compared only in the
final step, when both cheap signals match. -/
theorem c6_check_order (fs : FileSys) (ms : MetaStore) (p : String) (fi : FileInfo)
    (h1 : List.lookup p fs.files = some fi) (h2 : ms.fail = false) :
    (findRecord ms.records (generate_file_id p) = none →
      is_file_modified fs ms p = ⟨true, Status.new, [], []⟩) ∧
    (∀ r : FileRecord, findRecord ms.records (generate_file_id p) = some r →
      ((is_file_modified fs ms p).trace =
        if fi.mtime ≠ r.mtime then [Check.mtimeCmp]
        else if fi.size ≠ r.size then [Check.mtimeCmp, Check.sizeCmp]
        else [Check.mtimeCmp, Check.sizeCmp, Check.hashCmp]) ∧
      (Check.hashCmp ∈ (is_file_modified fs ms p).trace →
        fi.mtime = r.mtime ∧ fi.size = r.size)) := by
  refine ⟨?_, ?_⟩
  · intro h
    simp [is_file_modified, get_file_metadata, h1, h2, h]
  · intro r hr
    rw [is_file_modified_tracked fs ms p fi r h1 h2 hr]
    refine ⟨?_, ?_⟩
    · split_ifs <;> rfl
    · split_ifs with hm hs <;> simp_all

def c6w_fi : FileInfo :=
  ⟨10, 5, "alpha", true, false, 1, 1⟩

def c6w_rec : FileRecord :=
  ⟨⟨"fid:/docs/a.txt", "/docs/a.txt", "a.txt", 10, 5, ".txt", 50, some "md5:alpha"⟩, 1⟩

def c6w_fs : FileSys :=
  ⟨[("/docs/a.txt", c6w_fi)], 601⟩

def c6w_ms : MetaStore :=
  ⟨[c6w_rec], false⟩

/-- Claim C6 witness: on a concrete tracked file whose cheap signals
match, the amended theorem yields the full trace ending in the hash
comparison, and the presence of the hash comparison implies both cheap
signals matched. -/
theorem c6_witness :
    (is_file_modified c6w_fs c6w_ms "/docs/a.txt").trace =
      [Check.mtimeCmp, Check.sizeCmp, Check.hashCmp] ∧
    (c6w_fi.mtime = c6w_rec.mtime ∧ c6w_fi.size = c6w_rec.size) :=
  ⟨((c6_check_order c6w_fs c6w_ms "/docs/a.txt" c6w_fi rfl rfl).2 c6w_rec rfl).1,
   ((c6_check_order c6w_fs c6w_ms "/docs/a.txt" c6w_fi rfl rfl).2 c6w_rec rfl).2
     (by decide)⟩

/-- Claim C7 (confirmed): for a tracked existing file, classification
answers `unchanged` exactly when the current content hash, size and
mtime all equal the recorded values; in particular a differing hash
with matching size and mtime still yields `modified`. -/
theorem c7_hash_ground_truth (fs : FileSys) (ms : MetaStore) (p : String)
    (fi : FileInfo) (r : FileRecord)
    (h1 : List.lookup p fs.files = some fi) (h2 : ms.fail = false)
    (h3 : findRecord ms.records (generate_file_id p) = some r) :
    ((is_file_modified fs ms p).status = Status.unchanged ↔
      (some (get_file_hash fs p) = r.content_hash ∧ fi.size = r.size ∧
        fi.mtime = r.mtime)) ∧
    (some (get_file_hash fs p) ≠ r.content_hash → fi.size = r.size →
      fi.mtime = r.mtime → (is_file_modified fs ms p).status = Status.modified) := by
  rw [is_file_modified_tracked fs ms p fi r h1 h2 h3]
  split_ifs with hm hs hh <;> simp_all

def c7w_fi : FileInfo :=
  ⟨10, 5, "edited", true, false, 1, 1⟩

def c7w_rec : FileRecord :=
  ⟨⟨"fid:/docs/a.txt", "/docs/a.txt", "a.txt", 10, 5, ".txt", 50, some "md5:alpha"⟩, 1⟩

def c7w_fs : FileSys :=
  ⟨[("/docs/a.txt", c7w_fi)], 700⟩

def c7w_ms : MetaStore :=
  ⟨[c7w_rec], false⟩

/-- Claim C7 witness: a concrete file whose content hash differs from
the record while size and mtime match is classified `modified`. -/
theorem c7_witness :
    (is_file_modified c7w_fs c7w_ms "/docs/a.txt").status = Status.modified :=
  (c7_hash_ground_truth c7w_fs c7w_ms "/docs/a.txt" c7w_fi c7w_rec rfl rfl rfl).2
    (by decide) rfl rfl

/-- Claim C8 (confirmed): `index_single_file` on a file classified
`unchanged` short-circuits: the state is returned untouched (no chunk
deletion, no ingestion, no metadata write) together with success and
the previously recorded chunk count, so repeated single-file calls
with no filesystem change in between are idempotent. -/
theorem c8_unchanged_short_circuit (fs : FileSys) (st : SysState) (p : String)
    (hv : validate_file_path fs p = true)
    (hm : (is_file_modified fs st.ms p).is_modified = false)
    (hs : (is_file_modified fs st.ms p).status = Status.unchanged) :
    index_single_file fs st p true = (st, (true, get_file_chunk_count st.ms p)) := by
  simp [index_single_file, hv, hm, hs]

def c8w_fi : FileInfo :=
  ⟨10, 5, "alpha", true, false, 1, 1⟩

def c8w_rec : FileRecord :=
  ⟨⟨"fid:/docs/a.txt", "/docs/a.txt", "a.txt", 10, 5, ".txt", 50, some "md5:alpha"⟩, 4⟩

def c8w_fs : FileSys :=
  ⟨[("/docs/a.txt", c8w_fi)], 800⟩

def c8w_st : SysState :=
  ⟨⟨[⟨0, "fid:/docs/a.txt"⟩], 1⟩, ⟨[c8w_rec], false⟩⟩

/-- Claim C8 witness: the theorem applied to a concrete unchanged
tracked file. -/
theorem c8_witness :
    index_single_file c8w_fs c8w_st "/docs/a.txt" true =
      (c8w_st, (true, get_file_chunk_count c8w_st.ms "/docs/a.txt")) :=
  c8_unchanged_short_circuit c8w_fs c8w_st "/docs/a.txt" (by decide) (by decide)
    (by decide)

/-- Claim C9 (confirmed): when the metadata-store lookup raises
during classification of an existing file, `is_file_modified` does not
propagate the exception: it answers `(True, new)` — so the file is
reprocessed rather than silently skipped — and prints a warning, so
the error is reported, not swallowed. -/
theorem c9_store_error_conservative (fs : FileSys) (ms : MetaStore) (p : String)
    (fi : FileInfo)
    (h1 : List.lookup p fs.files = some fi) (h2 : ms.fail = true) :
    is_file_modified fs ms p =
      ⟨true, Status.new, [], ["Error checking file metadata: StoreError"]⟩ := by
  simp [is_file_modified, get_file_metadata, h1, h2]

def c9w_fi : FileInfo :=
  ⟨10, 5, "alpha", true, false, 1, 1⟩

def c9w_fs : FileSys :=
  ⟨[("/docs/a.txt", c9w_fi)], 900⟩

/-- Claim C9 witness: the theorem applied to a concrete file with a
failing metadata store. -/
theorem c9_witness :
    is_file_modified c9w_fs ⟨[], true⟩ "/docs/a.txt" =
      ⟨true, Status.new, [], ["Error checking file metadata: StoreError"]⟩ :=
  c9_store_error_conservative c9w_fs ⟨[], true⟩ "/docs/a.txt" c9w_fi rfl rfl

/-- Claim C10 (confirmed): for every question, retrieved-document
list and complexity flag, when the language-model call fails
`generate_response` does not raise: it returns the degraded
error-describing answer string. -/
theorem c10_generation_error_degraded (question : String)
    (retrieved_docs : List RetrievedDoc) (is_complex : Bool) (e : String) :
    generate_response question retrieved_docs is_complex
      (fun _ => Except.error e) = "Error generating response: " ++ e :=
  rfl
